import Mathlib

/-! RoboRTS decision layer: chase, shoot and reload behaviours.

A shallow embedding of `roborts_decision/example_behavior/open_day_chase_behavior.h`,
`shoot_behavior.h` and `reload_behavior.h`.

Conventions of the embedding.

* Numbers (`double`, `float`) are elements of a linear ordered field `F`; rounding is
  not modelled.  The C library functions the behaviours call (`atan2`, `cos`, `sin`,
  `sqrt`) are passed in as a `Libm F`.
* A call into the chassis executor, the blackboard or a simulator service is recorded
  as a `Command` in the trace a behaviour returns, in program order.  Logging
  (`ROS_WARN`, `ROS_INFO`, `ROS_ERROR`) and message time stamps are left out.
* What a behaviour reads from the outside in one tick (executor state, blackboard
  snapshot, service replies) is an argument of its `Run`.
-/

namespace roborts_decision

/-! ## Messages -/

/-- The enum `BehaviorState` of `behavior_tree/behavior_state.h`. -/
inductive BehaviorState where
  | RUNNING
  | SUCCESS
  | FAILURE
  | IDLE
deriving DecidableEq, Repr

/-- The enum `BehaviorMode` of the blackboard; the behaviours under study only ever
announce `CHASE`. -/
inductive BehaviorMode where
  | CHASE
deriving DecidableEq, Repr

/-- The message `geometry_msgs::Point` (also used for `geometry_msgs::Vector3`). -/
structure Point (F : Type) where
  x : F
  y : F
  z : F
deriving DecidableEq, Repr

/-- The message `geometry_msgs::Quaternion`.  The `tf` helpers that build a quaternion
from Euler angles are kept symbolic: `fromYaw yaw` stands for
`tf::createQuaternionMsgFromYaw(yaw)` and `fromRPY r p y` for
`tf::createQuaternionMsgFromRollPitchYaw(r, p, y)`. -/
inductive Quaternion (F : Type) where
  | xyzw (x y z w : F)
  | fromYaw (yaw : F)
  | fromRPY (roll pitch yaw : F)
deriving DecidableEq, Repr

/-- The message `geometry_msgs::PoseStamped` without its time stamp. -/
structure PoseStamped (F : Type) where
  frame_id : String
  position : Point F
  orientation : Quaternion F
deriving DecidableEq, Repr

/-- The message `geometry_msgs::Twist`. -/
structure Twist (F : Type) where
  linear : Point F
  angular : Point F
deriving DecidableEq, Repr

/-- A default-constructed `geometry_msgs::PoseStamped`: every number is zero and the
frame is the empty string. -/
def PoseStamped.zero {F : Type} [Zero F] : PoseStamped F :=
  { frame_id := "", position := ⟨0, 0, 0⟩, orientation := Quaternion.xyzw 0 0 0 0 }

/-- A default-constructed `geometry_msgs::Twist`. -/
def Twist.zero {F : Type} [Zero F] : Twist F :=
  { linear := ⟨0, 0, 0⟩, angular := ⟨0, 0, 0⟩ }

/-! ## External collaborators -/

/-- The functions of `<cmath>` the behaviours call. -/
structure Libm (F : Type) where
  atan2 : F → F → F
  cos : F → F
  sin : F → F
  sqrt : F → F

/-- The read-only interface of `Costmap2D` the chase behaviour uses.

`World2Map wx wy` is the returned flag together with the contents of the two
out-parameters after the call; `GetCost` is read at whatever cell it is given. -/
structure Costmap2D (F : Type) where
  World2Map : F → F → Bool × Nat × Nat
  Map2World : Nat → Nat → F × F
  GetCost : Nat → Nat → Nat

/-- One tick's snapshot of the blackboard. -/
structure Blackboard (F : Type) where
  GetRobotMapPose : PoseStamped F
  GetEnemy : PoseStamped F
  IsEnemyDetected : Bool
  GetCostMap2D : Costmap2D F

/-- Calls a behaviour makes on the executor, the blackboard and the simulator
services. -/
inductive Command (F : Type) where
  | change_behavior (mode : BehaviorMode)
  | Execute (goal : PoseStamped F)
  | ExecuteTwist (vel : Twist F)
  | Cancel
  | reloading
  | un_reload
  | check_bullet (robot_id : Int)
  | shoot (robot enemy : Int)
  | reload (robot : Int)
deriving DecidableEq, Repr

/-- The commands of a trace that go to the chassis executor. -/
def Command.isExecutor {F : Type} : Command F → Bool
  | Command.Execute _ => true
  | Command.ExecuteTwist _ => true
  | Command.Cancel => true
  | _ => false

/-- The executor commands of a trace, in order. -/
def executorTrace {F : Type} (t : List (Command F)) : List (Command F) :=
  t.filter Command.isExecutor

/-! ## Line iterator -/

/-- Modelled from the spec: `FastLineIterator` of `line_iterator.h`, which is not among
the sources.  An integer Bresenham iterator from `(x0, y0)` to `(x1, y1)`: it starts at
`(x0, y0)`, takes one step along the dominant axis per `Advance`, and an error term
decides the steps across. -/
structure FastLineIterator where
  x_ : Int
  y_ : Int
  xinc1_ : Int
  xinc2_ : Int
  yinc1_ : Int
  yinc2_ : Int
  den_ : Int
  num_ : Int
  numadd_ : Int
  numpixels_ : Nat
  curpixel_ : Nat
deriving DecidableEq, Repr

/-- Modelled from the spec: construction of the line iterator from its two end cells. -/
def FastLineIterator.new (x0 y0 x1 y1 : Int) : FastLineIterator :=
  let deltax := (x1 - x0).natAbs
  let deltay := (y1 - y0).natAbs
  let xinc : Int := if x1 ≥ x0 then 1 else -1
  let yinc : Int := if y1 ≥ y0 then 1 else -1
  if deltax ≥ deltay then
    { x_ := x0, y_ := y0, xinc1_ := 0, xinc2_ := xinc, yinc1_ := yinc, yinc2_ := 0,
      den_ := deltax, num_ := deltax / 2, numadd_ := deltay, numpixels_ := deltax,
      curpixel_ := 0 }
  else
    { x_ := x0, y_ := y0, xinc1_ := xinc, xinc2_ := 0, yinc1_ := 0, yinc2_ := yinc,
      den_ := deltay, num_ := deltay / 2, numadd_ := deltax, numpixels_ := deltay,
      curpixel_ := 0 }

/-- Modelled from the spec: `valid()`, another cell remains (the start included). -/
def FastLineIterator.IsValid (l : FastLineIterator) : Bool :=
  decide (l.curpixel_ ≤ l.numpixels_)

/-- Modelled from the spec: `advance()`, the move to the next cell. -/
def FastLineIterator.Advance (l : FastLineIterator) : FastLineIterator :=
  let num := l.num_ + l.numadd_
  if num ≥ l.den_ then
    { l with num_ := num - l.den_, x_ := l.x_ + l.xinc1_ + l.xinc2_,
             y_ := l.y_ + l.yinc1_ + l.yinc2_, curpixel_ := l.curpixel_ + 1 }
  else
    { l with num_ := num, x_ := l.x_ + l.xinc2_, y_ := l.y_ + l.yinc2_,
             curpixel_ := l.curpixel_ + 1 }

/-- The cells `for (...; line.IsValid(); line.Advance())` visits in at most `fuel`
rounds, each cast to `unsigned int` as the chase behaviour does. -/
def FastLineIterator.cellsAux : Nat → FastLineIterator → List (Nat × Nat)
  | 0, _ => []
  | fuel + 1, l =>
    if l.IsValid then (l.x_.toNat, l.y_.toNat) :: cellsAux fuel l.Advance else []

/-- All cells of the ray from `(x0, y0)` to `(x1, y1)`: the loop leaves after
`numpixels_ + 1` rounds, so that much fuel is enough. -/
def lineCells (x0 y0 x1 y1 : Nat) : List (Nat × Nat) :=
  let l := FastLineIterator.new x0 y0 x1 y1
  FastLineIterator.cellsAux (l.numpixels_ + 1) l

/-- Modelled from the spec: a `CostMapView` with unit resolution and its origin at the
world origin (the costmap sources are not among the files).  `World2Map` fails on a
negative coordinate and otherwise returns the cell the point falls in, `Map2World`
returns the centre of a cell, `GetCost` reads the table `cost`. -/
def gridMap {F : Type} [LinearOrderedField F] [FloorSemiring F] (cost : Nat → Nat → Nat) :
    Costmap2D F :=
  { World2Map := fun wx wy =>
      if wx < 0 ∨ wy < 0 then (false, 0, 0) else (true, Nat.floor wx, Nat.floor wy)
    Map2World := fun mx my => ((mx : F) + 1 / 2, (my : F) + 1 / 2)
    GetCost := cost }

/-! ## OpenDayChaseBehavior -/

/-- The member `chase_buffer_` after `resize(2)`: a vector with two slots. -/
structure ChaseBuffer (F : Type) where
  slot0 : PoseStamped F
  slot1 : PoseStamped F
deriving DecidableEq, Repr

/-- Read `chase_buffer_[i]` for an index `i < 2`. -/
def ChaseBuffer.get {F : Type} (b : ChaseBuffer F) (i : Nat) : PoseStamped F :=
  if i = 0 then b.slot0 else b.slot1

/-- Write `chase_buffer_[i] = p` for an index `i < 2`. -/
def ChaseBuffer.set {F : Type} (b : ChaseBuffer F) (i : Nat) (p : PoseStamped F) :
    ChaseBuffer F :=
  if i = 0 then { b with slot0 := p } else { b with slot1 := p }

/-- The data members of `OpenDayChaseBehavior`; `chase_count_` is an `unsigned int`,
a natural number below `2 ^ 32`. -/
structure OpenDayChaseBehavior (F : Type) where
  chase_goal_ : PoseStamped F
  chase_buffer_ : ChaseBuffer F
  chase_count_ : Nat
  cancel_goal_ : Bool
deriving DecidableEq, Repr

namespace OpenDayChaseBehavior

variable {F : Type} [LinearOrderedField F]

/-- The constructor of `OpenDayChaseBehavior`. -/
def new : OpenDayChaseBehavior F :=
  { chase_goal_ :=
      { frame_id := "map", position := ⟨0, 0, 0⟩, orientation := Quaternion.xyzw 0 0 0 1 }
    chase_buffer_ := ⟨PoseStamped.zero, PoseStamped.zero⟩
    chase_count_ := 0
    cancel_goal_ := true }

/-- The method `SetGoal`. -/
def SetGoal (s : OpenDayChaseBehavior F) (chase_goal : PoseStamped F) :
    OpenDayChaseBehavior F :=
  { s with chase_goal_ := chase_goal }

/-- The method `Cancel`: it forwards to the executor. -/
def Cancel (s : OpenDayChaseBehavior F) : OpenDayChaseBehavior F × List (Command F) :=
  (s, [Command.Cancel])

/-- The search loop of lines 114-133 over the cells of the ray: the world coordinates of
the first cell whose cost is below 253, or `none` when the loop ends with `find_goal`
still false. -/
def findGoal (cm : Costmap2D F) : List (Nat × Nat) → Option (F × F)
  | [] => none
  | c :: rest =>
    if cm.GetCost c.1 c.2 ≥ 253 then findGoal cm rest else some (cm.Map2World c.1 c.2)

/-- The statement `if (cancel_goal_) { Cancel(); cancel_goal_ = false; } return;` of the
stand-still branches. -/
def cancelOnce (s : OpenDayChaseBehavior F) : OpenDayChaseBehavior F × List (Command F) :=
  if s.cancel_goal_ then ({ s with cancel_goal_ := false }, [Command.Cancel]) else (s, [])

/-- The stand-off check of line 63 on the offsets `dx`, `dy` from the robot to the enemy:
the distance is at least 0.8 and at most 1.2. -/
def closeEnough (m : Libm F) (dx dy : F) : Bool :=
  decide (m.sqrt (dx ^ 2 + dy ^ 2) ≥ 0.8 ∧ m.sqrt (dx ^ 2 + dy ^ 2) ≤ 1.2)

/-- The goal `reduce_goal` as built on lines 73-87: 0.4 m short of the enemy on the line
from the robot, with the robot's orientation. -/
def reduceGoal (m : Libm F) (latest robot_map_pose : PoseStamped F) : PoseStamped F :=
  let dx := latest.position.x - robot_map_pose.position.x
  let dy := latest.position.y - robot_map_pose.position.y
  let yaw := m.atan2 dy dx
  { frame_id := "map"
    position := ⟨latest.position.x - 0.4 * m.cos yaw, latest.position.y - 0.4 * m.sin yaw, 1⟩
    orientation := robot_map_pose.orientation }

/-- The body of the first branch of `Run` (lines 46-151), the re-plan.  `line gx gy x1 y1`
is the list of cells a `FastLineIterator` built from these end cells visits. -/
def replan (m : Libm F) (line : Nat → Nat → Nat → Nat → List (Nat × Nat))
    (s : OpenDayChaseBehavior F) (bb : Blackboard F) :
    OpenDayChaseBehavior F × List (Command F) :=
  let robot_map_pose := bb.GetRobotMapPose
  let s1 : OpenDayChaseBehavior F :=
    { s with chase_buffer_ := s.chase_buffer_.set (s.chase_count_ % 2) bb.GetEnemy
             chase_count_ := ((s.chase_count_ + 1) % 2 ^ 32) % 2 }
  let latest := s1.chase_buffer_.get ((s1.chase_count_ + 2 - 1) % 2)
  let dx := latest.position.x - robot_map_pose.position.x
  let dy := latest.position.y - robot_map_pose.position.y
  if closeEnough m dx dy = true then
    cancelOnce s1
  else
    let reduce_goal := reduceGoal m latest robot_map_pose
    let cm := bb.GetCostMap2D
    let get_enemy_cell := cm.World2Map reduce_goal.position.x reduce_goal.position.y
    if get_enemy_cell.1 = false then
      (s1, [])
    else
      let goal_cell_x := get_enemy_cell.2.1
      let goal_cell_y := get_enemy_cell.2.2
      let robot_cell :=
        cm.World2Map robot_map_pose.position.x robot_map_pose.position.y
      let robot_cell_x := robot_cell.2.1
      if cm.GetCost goal_cell_x goal_cell_y ≥ 253 then
        match findGoal cm (line goal_cell_x goal_cell_y robot_cell_x robot_cell_x) with
        | some g =>
          ({ s1 with cancel_goal_ := true },
            [Command.Execute { reduce_goal with position := ⟨g.1, g.2, 1⟩ }])
        | none => cancelOnce s1
      else
        ({ s1 with cancel_goal_ := true }, [Command.Execute reduce_goal])

/-- The method `Run`, one tick.  `executor_state` is what `Update()` returned. -/
def Run (m : Libm F) (line : Nat → Nat → Nat → Nat → List (Nat × Nat))
    (s : OpenDayChaseBehavior F) (executor_state : BehaviorState) (bb : Blackboard F) :
    OpenDayChaseBehavior F × List (Command F) :=
  if executor_state = BehaviorState.SUCCESS ∧ executor_state = BehaviorState.FAILURE then
    let r := replan m line s bb
    (r.1, Command.change_behavior BehaviorMode.CHASE :: r.2)
  else if executor_state = BehaviorState.IDLE then
    (s, Command.change_behavior BehaviorMode.CHASE ::
      (if s.cancel_goal_ then [Command.Cancel] else []))
  else
    (s, [Command.change_behavior BehaviorMode.CHASE])

/-- A run of ticks: each tick comes with the executor state and the blackboard snapshot
it sees; the traces are concatenated. -/
def RunTicks (m : Libm F) (line : Nat → Nat → Nat → Nat → List (Nat × Nat)) :
    OpenDayChaseBehavior F → List (BehaviorState × Blackboard F) →
    OpenDayChaseBehavior F × List (Command F)
  | s, [] => (s, [])
  | s, tick :: rest =>
    let r := Run m line s tick.1 tick.2
    let r2 := RunTicks m line r.1 rest
    (r2.1, r.2 ++ r2.2)

end OpenDayChaseBehavior

/-! ## Configuration -/

/-- The message `WhirlVel` of `decision.proto`. -/
structure WhirlVel (F : Type) where
  angle_x_vel : F
  angle_y_vel : F
  angle_z_vel : F
deriving DecidableEq, Repr

/-- A reload spot of `decision.proto`: a position and three Euler angles. -/
structure ReloadSpot (F : Type) where
  x : F
  y : F
  z : F
  roll : F
  pitch : F
  yaw : F
deriving DecidableEq, Repr

/-- The fields of `DecisionConfig` the behaviours read. -/
structure DecisionConfig (F : Type) where
  whirl_vel : WhirlVel F
  reload_spot_red : ReloadSpot F
  reload_spot_blue : ReloadSpot F
deriving DecidableEq, Repr

/-! ## ShootBehavior -/

/-- The constant `PROJECTILE_SPEED`. -/
def PROJECTILE_SPEED : Int := 25

/-- The constant `BARREL_HEAT_LIMIT`. -/
def BARREL_HEAT_LIMIT : Int := 360

/-- The constant `BARREL_HEAT_UPPERBOUND`. -/
def BARREL_HEAT_UPPERBOUND : Int := 720

/-- The data members of `ShootBehavior` that `Run` reads. -/
structure ShootBehavior (F : Type) where
  robot_ : Int
  enemy_ : Int
  barrel_heat_ : Int
  whirl_vel_ : Twist F
  rot_whirl_vel_ : Twist F
deriving DecidableEq, Repr

namespace ShootBehavior

variable {F : Type} [LinearOrderedField F]

/-- The method `LoadParam`; `config` is `none` when `ReadProtoFromTextFile` fails. -/
def LoadParam (s : ShootBehavior F) (config : Option (DecisionConfig F)) :
    Bool × ShootBehavior F :=
  match config with
  | none => (false, s)
  | some decision_config =>
    let w := decision_config.whirl_vel
    (true,
      { s with
        whirl_vel_ :=
          { s.whirl_vel_ with angular := ⟨w.angle_x_vel, w.angle_y_vel, w.angle_z_vel⟩ }
        rot_whirl_vel_ :=
          { s.rot_whirl_vel_ with angular := ⟨w.angle_x_vel, w.angle_y_vel, w.angle_z_vel⟩ } })

/-- The constructor.  `ns` is what `ros::this_node::getNamespace()` returns; the three
integers are what the members `robot_`, `enemy_` and `barrel_heat_`, which the
constructor does not always assign, hold beforehand. -/
def new (config : Option (DecisionConfig F)) (ns : String) (robot0 enemy0 heat0 : Int) :
    ShootBehavior F :=
  let s0 : ShootBehavior F :=
    { robot_ := robot0, enemy_ := enemy0, barrel_heat_ := heat0,
      whirl_vel_ := Twist.zero, rot_whirl_vel_ := Twist.zero }
  let s1 := (LoadParam s0 config).2
  if ns = "r1" then { s1 with robot_ := 1, enemy_ := 3 }
  else if ns = "r3" then { s1 with robot_ := 3, enemy_ := 1 }
  else s1

/-- The subscriber callback `BarrelHeatCallback`. -/
def BarrelHeatCallback (s : ShootBehavior F) (shooter_heat : Int) : ShootBehavior F :=
  { s with barrel_heat_ := shooter_heat }

/-- The method `HasBullet`.  `reply` is the answer of the `/check_bullet` service:
`none` when the call fails, otherwise `remaining_bullet`. -/
def HasBullet (s : ShootBehavior F) (reply : Option Int) : Bool × List (Command F) :=
  match reply with
  | some remaining_bullet => (decide (remaining_bullet ≠ 0), [Command.check_bullet s.robot_])
  | none => (false, [Command.check_bullet s.robot_])

/-- The method `ShootEnemy`: one call of the `/shoot` service, whose answer is only
logged. -/
def ShootEnemy (s : ShootBehavior F) : List (Command F) :=
  [Command.shoot s.robot_ s.enemy_]

/-- The pose `shoot_pose` of lines 82-95: the robot's own position, turned to the
enemy. -/
def shootPose (m : Libm F) (bb : Blackboard F) : PoseStamped F :=
  let enemy_map_pose := bb.GetEnemy
  let robot_map_pose := bb.GetRobotMapPose
  let dx := enemy_map_pose.position.x - robot_map_pose.position.x
  let dy := enemy_map_pose.position.y - robot_map_pose.position.y
  let yaw := m.atan2 dy dx
  { frame_id := "map"
    position := ⟨robot_map_pose.position.x, robot_map_pose.position.y, 0⟩
    orientation := Quaternion.fromRPY 0 0 yaw }

/-- The method `Run`, one tick; it changes no member, so only the trace is returned.
`bullet_reply` is the answer the `/check_bullet` service gives if it is asked. -/
def Run (m : Libm F) (s : ShootBehavior F) (bb : Blackboard F) (bullet_reply : Option Int) :
    List (Command F) :=
  if bb.IsEnemyDetected then
    let hb := HasBullet s bullet_reply
    if hb.1 = false then
      hb.2 ++ [Command.ExecuteTwist s.rot_whirl_vel_]
    else
      let t := hb.2 ++ [Command.Execute (shootPose m bb)]
      if s.barrel_heat_ ≥ BARREL_HEAT_LIMIT - PROJECTILE_SPEED then
        t
      else
        t ++ ShootEnemy s
  else
    [Command.ExecuteTwist s.rot_whirl_vel_]

end ShootBehavior

/-! ## ReloadBehavior -/

/-- The data members of `ReloadBehavior`. -/
structure ReloadBehavior (F : Type) where
  reload_spot : PoseStamped F
  cancel_goal_ : Bool
  ns : String
deriving DecidableEq, Repr

namespace ReloadBehavior

variable {F : Type} [LinearOrderedField F]

/-- The pose a reload spot of the configuration describes. -/
def spotPose (old : PoseStamped F) (c : ReloadSpot F) : PoseStamped F :=
  { old with position := ⟨c.x, c.y, c.z⟩, orientation := Quaternion.fromRPY c.roll c.pitch c.yaw }

/-- The method `LoadParam`; `config` is `none` when `ReadProtoFromTextFile` fails. -/
def LoadParam (s : ReloadBehavior F) (config : Option (DecisionConfig F)) :
    Bool × ReloadBehavior F :=
  match config with
  | none => (false, s)
  | some decision_config =>
    let spot0 : PoseStamped F := { s.reload_spot with frame_id := "map" }
    if s.ns = "//r1" ∨ s.ns = "//r2" then
      (true, { s with reload_spot := spotPose spot0 decision_config.reload_spot_red })
    else if s.ns = "//r3" ∨ s.ns = "//r4" then
      (true, { s with reload_spot := spotPose spot0 decision_config.reload_spot_blue })
    else
      (true, { s with reload_spot := spot0 })

/-- The constructor.  `ns` is what `ros::this_node::getNamespace()` returns. -/
def new (config : Option (DecisionConfig F)) (ns : String) : ReloadBehavior F :=
  let s0 : ReloadBehavior F := { reload_spot := PoseStamped.zero, cancel_goal_ := false, ns := ns }
  let s1 := (LoadParam s0 config).2
  { s1 with cancel_goal_ := true, ns := ns }

/-- The method `Cancel`. -/
def Cancel (s : ReloadBehavior F) : ReloadBehavior F × List (Command F) :=
  ({ s with cancel_goal_ := false }, [Command.Cancel])

/-- The method `execute`, run on the detached thread. -/
def execute (reload_goal : PoseStamped F) : List (Command F) :=
  [Command.Execute reload_goal]

/-- Lines 70-92: what the polling loop does once the robot is close enough.
`reply` is the answer of the `reload` service: `none` when the call fails, otherwise
the field `success`. -/
def arrived (s : ReloadBehavior F) (reply : Option Bool) :
    ReloadBehavior F × List (Command F) :=
  let pre : List (Command F) := [Command.reloading, Command.reload 0]
  match reply with
  | some true =>
    let c := Cancel s
    (c.1, pre ++ c.2 ++ [Command.un_reload])
  | some false =>
    let c := Cancel s
    (c.1, pre ++ c.2 ++ [Command.un_reload])
  | none =>
    let c := Cancel s
    (c.1, pre ++ c.2 ++ [Command.un_reload])

/-- The loop `while (cancel_goal_)` of lines 65-94.  Each round reads the next robot pose
of `polls`; the result is `none` when the loop is still running after all of them. -/
def pollLoop (s : ReloadBehavior F) (reply : Option Bool) :
    List (PoseStamped F) → Option (ReloadBehavior F × List (Command F))
  | [] => if s.cancel_goal_ then none else some (s, [])
  | robot_map_pose :: rest =>
    if s.cancel_goal_ then
      if (robot_map_pose.position.x - s.reload_spot.position.x) ^ 2 +
          (robot_map_pose.position.y - s.reload_spot.position.y) ^ 2 ≤ 0.17 then
        some (arrived s reply)
      else
        pollLoop s reply rest
    else
      some (s, [])

/-- The goal `reload_goal` of lines 51-58. -/
def reloadGoal (m : Libm F) (s : ReloadBehavior F) (robot_map_pose : PoseStamped F) :
    PoseStamped F :=
  let dx := s.reload_spot.position.x - robot_map_pose.position.x
  let dy := s.reload_spot.position.y - robot_map_pose.position.y
  { frame_id := "map"
    position := ⟨s.reload_spot.position.x, s.reload_spot.position.y, 1⟩
    orientation := Quaternion.fromYaw (m.atan2 dy dx) }

/-- The method `Run`.  `executor_state` is what `Update()` returned, `bb` the blackboard
on entry, `polls` the robot poses the polling loop reads, `reply` the answer of the
`reload` service.  The goal handed to the detached thread is recorded where the thread
is started.  The result is `none` when `Run` has not returned after all of `polls`. -/
def Run (m : Libm F) (s : ReloadBehavior F) (executor_state : BehaviorState)
    (bb : Blackboard F) (polls : List (PoseStamped F)) (reply : Option Bool) :
    Option (ReloadBehavior F × List (Command F)) :=
  let robot_map_pose := bb.GetRobotMapPose
  if executor_state ≠ BehaviorState.RUNNING then
    let dx := s.reload_spot.position.x - robot_map_pose.position.x
    let dy := s.reload_spot.position.y - robot_map_pose.position.y
    if dx = 0 ∧ dy = 0 then
      if s.cancel_goal_ then
        some ({ s with cancel_goal_ := false }, [Command.Cancel])
      else
        some (s, [])
    else
      let reload_goal := reloadGoal m s robot_map_pose
      let s1 : ReloadBehavior F := { s with cancel_goal_ := true }
      match pollLoop s1 reply polls with
      | some r => some (r.1, execute reload_goal ++ r.2)
      | none => none
  else
    some (s, [])

end ReloadBehavior

/-! ## Scenarios -/

section Scenarios

variable {F : Type} [LinearOrderedField F]

/-- A pose of the map frame at `(x, y)` with the identity orientation. -/
def poseAt (x y : F) : PoseStamped F :=
  { frame_id := "map", position := ⟨x, y, 0⟩, orientation := Quaternion.xyzw 0 0 0 1 }

/-- The blackboard of the scenario "chase projection": robot at `(0, 0)`, opponent at
`(3, 0)`, every cell of the costmap free. -/
def projectionScenario [FloorSemiring F] : Blackboard F :=
  { GetRobotMapPose := poseAt 0 0, GetEnemy := poseAt 3 0, IsEnemyDetected := true,
    GetCostMap2D := gridMap (fun _ _ => 0) }

/-- The blackboard of the scenario "chase repair": robot at `(0, 0)`, opponent at
`(3, 0)`, the cell `(2, 0)` under the projected goal lethal and every other cell free. -/
def repairScenario [FloorSemiring F] : Blackboard F :=
  { GetRobotMapPose := poseAt 0 0, GetEnemy := poseAt 3 0, IsEnemyDetected := true,
    GetCostMap2D := gridMap (fun cx cy => if cx = 2 ∧ cy = 0 then 254 else 0) }

/-- A blackboard on which the robot cell has two different coordinates: robot at
`(3.5, 0.5)` in cell `(3, 0)`, opponent straight above it at `(3.5, 3.9)`, the cell
`(3, 3)` under the projected goal lethal and every other cell free. -/
def columnScenario [FloorSemiring F] : Blackboard F :=
  { GetRobotMapPose := poseAt 3.5 0.5, GetEnemy := poseAt 3.5 3.9, IsEnemyDetected := true,
    GetCostMap2D := gridMap (fun cx cy => if cx = 3 ∧ cy = 3 then 254 else 0) }

/-- A configuration with a red reload spot at `(1, 2, 0)` and a blue one at `(5, 6, 0)`. -/
def exampleConfig : DecisionConfig F :=
  { whirl_vel := ⟨0, 0, 1⟩
    reload_spot_red := ⟨1, 2, 0, 0, 0, 0⟩
    reload_spot_blue := ⟨5, 6, 0, 0, 0, 0⟩ }

/-- A reload behaviour of the red team whose reload spot is `(1, 2, 0)`, as constructed
from `exampleConfig` under the namespace `//r1`. -/
def exampleReload : ReloadBehavior F :=
  ReloadBehavior.new (some exampleConfig) "//r1"

end Scenarios

/-! ## Facts of real arithmetic used by the scenarios -/

theorem real_sqrt_nine : Real.sqrt 9 = 3 := by
  rw [show (9 : ℝ) = 3 ^ 2 by norm_num]
  exact Real.sqrt_sq (by norm_num)

theorem real_arg_three : Complex.arg (⟨3, 0⟩ : ℂ) = 0 := by
  have h : (⟨3, 0⟩ : ℂ) = ((3 : ℝ) : ℂ) := by
    apply Complex.ext <;> simp
  rw [h]
  exact Complex.arg_ofReal_of_nonneg (by norm_num)

theorem real_floor_two_six : Nat.floor (2.6 : ℝ) = 2 := by
  rw [Nat.floor_eq_iff (by norm_num)]
  constructor <;> norm_num

/-- On the grid map the centre of a cell converts back to that cell. -/
theorem gridMap_roundtrip {F : Type} [LinearOrderedField F] [FloorSemiring F]
    (cost : Nat → Nat → Nat) (cx cy : Nat) :
    (gridMap cost : Costmap2D F).World2Map
        ((gridMap cost : Costmap2D F).Map2World cx cy).1
        ((gridMap cost : Costmap2D F).Map2World cx cy).2 = (true, cx, cy) := by
  have hx : ¬ ((cx : F) + 1 / 2 < 0) := by
    have : (0 : F) ≤ (cx : F) := Nat.cast_nonneg cx
    have h2 : (0 : F) < 1 / 2 := by norm_num
    linarith
  have hy : ¬ ((cy : F) + 1 / 2 < 0) := by
    have : (0 : F) ≤ (cy : F) := Nat.cast_nonneg cy
    have h2 : (0 : F) < 1 / 2 := by norm_num
    linarith
  have fx : Nat.floor ((cx : F) + 1 / 2) = cx := by
    rw [Nat.floor_eq_iff (le_of_not_lt hx)]
    constructor
    · have h2 : (0 : F) < 1 / 2 := by norm_num
      linarith
    · have h2 : (1 : F) / 2 < 1 := by norm_num
      linarith
  have fy : Nat.floor ((cy : F) + 1 / 2) = cy := by
    rw [Nat.floor_eq_iff (le_of_not_lt hy)]
    constructor
    · have h2 : (0 : F) < 1 / 2 := by norm_num
      linarith
    · have h2 : (1 : F) / 2 < 1 := by norm_num
      linarith
  have hxy : ¬ ((cx : F) + 1 / 2 < 0 ∨ (cy : F) + 1 / 2 < 0) := fun h => h.elim hx hy
  show (if (cx : F) + 1 / 2 < 0 ∨ (cy : F) + 1 / 2 < 0 then (false, 0, 0)
    else (true, Nat.floor ((cx : F) + 1 / 2), Nat.floor ((cy : F) + 1 / 2))) = (true, cx, cy)
  rw [if_neg hxy, fx, fy]

namespace OpenDayChaseBehavior

variable {F : Type} [LinearOrderedField F]

/-- The gate of `Run` is closed when the executor reports `SUCCESS`. -/
theorem Run_SUCCESS (m : Libm F) (line : Nat → Nat → Nat → Nat → List (Nat × Nat))
    (s : OpenDayChaseBehavior F) (bb : Blackboard F) :
    Run m line s BehaviorState.SUCCESS bb
      = (s, [Command.change_behavior BehaviorMode.CHASE]) := by
  simp [Run]

/-- The gate of `Run` is closed when the executor reports `FAILURE`. -/
theorem Run_FAILURE (m : Libm F) (line : Nat → Nat → Nat → Nat → List (Nat × Nat))
    (s : OpenDayChaseBehavior F) (bb : Blackboard F) :
    Run m line s BehaviorState.FAILURE bb
      = (s, [Command.change_behavior BehaviorMode.CHASE]) := by
  simp [Run]

/-- No executor state opens the gate `SUCCESS && FAILURE`: `Run` never executes a goal. -/
theorem Run_no_Execute (m : Libm F) (line : Nat → Nat → Nat → Nat → List (Nat × Nat))
    (s : OpenDayChaseBehavior F) (st : BehaviorState) (bb : Blackboard F)
    (g : PoseStamped F) : Command.Execute g ∉ (Run m line s st bb).2 := by
  cases st <;> simp [Run]

/-- The re-plan on the scenario "chase projection" over the reals: one `Execute`, at
`(2.6, 0)`. -/
theorem replan_projectionScenario :
    replan (⟨fun y x => Complex.arg ⟨x, y⟩, Real.cos, Real.sin, Real.sqrt⟩ : Libm ℝ)
      lineCells new projectionScenario
      = ({ chase_goal_ := poseAt 0 0
           chase_buffer_ := ⟨poseAt 3 0, PoseStamped.zero⟩
           chase_count_ := 1
           cancel_goal_ := true },
         [Command.Execute
          ({ frame_id := "map", position := ⟨2.6, 0, 1⟩,
             orientation := Quaternion.xyzw 0 0 0 1 } : PoseStamped ℝ)]) := by
  have h1 : ¬ ((0.8 : ℝ) ≤ 3 ∧ (3 : ℝ) ≤ 1.2) := by norm_num
  have h2 : (3 : ℝ) - 0.4 = 2.6 := by norm_num
  have h3 : ¬ ((2.6 : ℝ) < 0) := by norm_num
  simp [replan, new, projectionScenario, poseAt, ChaseBuffer.set, ChaseBuffer.get, reduceGoal,
    closeEnough, gridMap, real_sqrt_nine, real_arg_three, h1, h2, h3, real_floor_two_six]

/-- The re-plan on the scenario "chase repair" over the reals: the goal cell `(2, 0)` is
lethal, the ray back to the robot finds the cell `(1, 0)`, whose centre is executed. -/
theorem replan_repairScenario :
    replan (⟨fun y x => Complex.arg ⟨x, y⟩, Real.cos, Real.sin, Real.sqrt⟩ : Libm ℝ)
      lineCells new repairScenario
      = ({ chase_goal_ := poseAt 0 0
           chase_buffer_ := ⟨poseAt 3 0, PoseStamped.zero⟩
           chase_count_ := 1
           cancel_goal_ := true },
         [Command.Execute
          ({ frame_id := "map", position := ⟨1 + 1 / 2, 0 + 1 / 2, 1⟩,
             orientation := Quaternion.xyzw 0 0 0 1 } : PoseStamped ℝ)]) := by
  have h1 : ¬ ((0.8 : ℝ) ≤ 3 ∧ (3 : ℝ) ≤ 1.2) := by norm_num
  have h2 : (3 : ℝ) - 0.4 = 2.6 := by norm_num
  have h3 : ¬ ((2.6 : ℝ) < 0) := by norm_num
  have hl : lineCells 2 0 0 0 = [(2, 0), (1, 0), (0, 0)] := by decide
  simp [replan, new, repairScenario, poseAt, ChaseBuffer.set, ChaseBuffer.get, reduceGoal,
    closeEnough, gridMap, real_sqrt_nine, real_arg_three, h1, h2, h3, real_floor_two_six, hl,
    findGoal]

end OpenDayChaseBehavior

namespace OpenDayChaseBehavior

/-- What the search loop returns is the centre of a cell of the ray whose cost was read
below 253. -/
theorem findGoal_some {F : Type} (cm : Costmap2D F) (cells : List (Nat × Nat)) (g : F × F)
    (h : findGoal cm cells = some g) :
    ∃ c ∈ cells, cm.GetCost c.1 c.2 < 253 ∧ g = cm.Map2World c.1 c.2 := by
  induction cells with
  | nil => simp [findGoal] at h
  | cons c rest ih =>
    by_cases hc : cm.GetCost c.1 c.2 ≥ 253
    · rw [findGoal, if_pos hc] at h
      obtain ⟨d, hd, hlt, hg⟩ := ih h
      exact ⟨d, List.mem_cons_of_mem _ hd, hlt, hg⟩
    · rw [findGoal, if_neg hc] at h
      refine ⟨c, List.mem_cons_self _ _, Nat.lt_of_not_ge hc, ?_⟩
      exact (Option.some.inj h).symm

/-- The stand-still statement never executes a goal. -/
theorem cancelOnce_no_Execute {F : Type} (s : OpenDayChaseBehavior F) (g : PoseStamped F) :
    Command.Execute g ∉ (cancelOnce s).2 := by
  unfold cancelOnce
  split <;> simp

/-- Every goal the re-plan executes is either the projected goal, whose cell converted in
bounds and has a cost below 253, or the centre of a ray cell whose cost was read below
253. -/
theorem replan_Execute {F : Type} [LinearOrderedField F] (m : Libm F) (line : Nat → Nat → Nat → Nat → List (Nat × Nat))
    (s : OpenDayChaseBehavior F) (bb : Blackboard F) (g : PoseStamped F)
    (h : Command.Execute g ∈ (replan m line s bb).2) :
    (∃ cx cy, bb.GetCostMap2D.World2Map g.position.x g.position.y = (true, cx, cy) ∧
        bb.GetCostMap2D.GetCost cx cy < 253) ∨
    (∃ cx cy, bb.GetCostMap2D.GetCost cx cy < 253 ∧
        (g.position.x, g.position.y) = bb.GetCostMap2D.Map2World cx cy) := by
  unfold replan at h
  simp only at h
  split at h
  · exact absurd h (cancelOnce_no_Execute _ _)
  · split at h
    · simp at h
    · rename_i hflag
      split at h
      · split at h
        · rename_i g2 hfind
          obtain ⟨c, _, hlt, hg⟩ := findGoal_some _ _ _ hfind
          simp only [List.mem_singleton, Command.Execute.injEq] at h
          right
          refine ⟨c.1, c.2, hlt, ?_⟩
          rw [← hg, h]
        · exact absurd h (cancelOnce_no_Execute _ _)
      · rename_i hcost
        simp only [List.mem_singleton, Command.Execute.injEq] at h
        left
        refine ⟨_, _, ?_, Nat.lt_of_not_ge hcost⟩
        rw [h]
        have hb : ∀ b : Bool, ¬ b = false → b = true := by decide
        exact Prod.ext (hb _ hflag) rfl

/-- Inside the re-plan the cancel flag follows the command issued: it is true after an
`Execute` and false after a `Cancel`. -/
theorem replan_cancel_flag {F : Type} [LinearOrderedField F] (m : Libm F)
    (line : Nat → Nat → Nat → Nat → List (Nat × Nat)) (s : OpenDayChaseBehavior F)
    (bb : Blackboard F) :
    (∀ g, Command.Execute g ∈ (replan m line s bb).2 →
      (replan m line s bb).1.cancel_goal_ = true) ∧
    (Command.Cancel ∈ (replan m line s bb).2 →
      (replan m line s bb).1.cancel_goal_ = false) := by
  have hc : ∀ t : OpenDayChaseBehavior F,
      (∀ g, Command.Execute g ∈ (cancelOnce t).2 → (cancelOnce t).1.cancel_goal_ = true) ∧
      (Command.Cancel ∈ (cancelOnce t).2 → (cancelOnce t).1.cancel_goal_ = false) := by
    intro t
    unfold cancelOnce
    split <;> simp
  unfold replan
  simp only
  split
  · exact hc _
  · split
    · simp
    · split
      · split
        · simp
        · exact hc _
      · simp

/-- C1 (the code departs from the claim).  On the scenario "chase projection" (robot at
`(0, 0)`, opponent at `(3, 0)`, all cells free, fresh behaviour) a tick with executor
state `SUCCESS`, and likewise one with `FAILURE`, only announces the mode and leaves the
state as it was: the gate `SUCCESS && FAILURE` never opens.  The re-plan behind the gate,
run on the same input, is the one `Execute` at `(2.6, 0)` the claim expects. -/
theorem C1_success_tick_issues_no_goal :
    Run (⟨fun y x => Complex.arg ⟨x, y⟩, Real.cos, Real.sin, Real.sqrt⟩ : Libm ℝ)
        lineCells new BehaviorState.SUCCESS projectionScenario
      = (new, [Command.change_behavior BehaviorMode.CHASE]) ∧
    Run (⟨fun y x => Complex.arg ⟨x, y⟩, Real.cos, Real.sin, Real.sqrt⟩ : Libm ℝ)
        lineCells new BehaviorState.FAILURE projectionScenario
      = (new, [Command.change_behavior BehaviorMode.CHASE]) ∧
    (replan (⟨fun y x => Complex.arg ⟨x, y⟩, Real.cos, Real.sin, Real.sqrt⟩ : Libm ℝ)
        lineCells new projectionScenario).2
      = [Command.Execute
          ({ frame_id := "map", position := ⟨2.6, 0, 1⟩,
             orientation := Quaternion.xyzw 0 0 0 1 } : PoseStamped ℝ)] := by
  refine ⟨Run_SUCCESS _ _ _ _, Run_FAILURE _ _ _ _, ?_⟩
  rw [replan_projectionScenario]

/-- C2 (the code departs from the claim).  From the freshly constructed behaviour, whose
cancel flag is true, two ticks in a row with executor state `IDLE` send the executor
`Cancel` twice with no `Execute` between them, whatever the blackboard holds. -/
theorem C2_two_idle_ticks_cancel_twice {F : Type} [LinearOrderedField F] (m : Libm F)
    (line : Nat → Nat → Nat → Nat → List (Nat × Nat)) (bb1 bb2 : Blackboard F) :
    executorTrace
        (RunTicks m line new [(BehaviorState.IDLE, bb1), (BehaviorState.IDLE, bb2)]).2
      = [Command.Cancel, Command.Cancel] := by
  simp [RunTicks, Run, new, executorTrace, Command.isExecutor]

/-- C3 (the code departs from the claim).  A tick with executor state `IDLE` on the
freshly constructed behaviour issues `Cancel` and leaves `cancel_goal_` true: the `IDLE`
branch does not clear the flag. -/
theorem C3_idle_cancel_keeps_flag {F : Type} [LinearOrderedField F] (m : Libm F)
    (line : Nat → Nat → Nat → Nat → List (Nat × Nat)) (bb : Blackboard F) :
    Command.Cancel ∈ (Run m line new BehaviorState.IDLE bb).2 ∧
    (Run m line new BehaviorState.IDLE bb).1.cancel_goal_ = true := by
  simp [Run, new]

/-- C4.  Every goal handed to `Execute`, by the re-plan or by a whole tick of `Run`, is
either a point whose cell converted in bounds and has a cost below 253, or the world
coordinates of a cell whose cost is below 253; when `Map2World` followed by `World2Map`
returns the same cell, the goal therefore lies in a cell of cost below 253. -/
theorem C4_executed_goal_cell_below_253 {F : Type} [LinearOrderedField F] (m : Libm F)
    (line : Nat → Nat → Nat → Nat → List (Nat × Nat)) (s : OpenDayChaseBehavior F)
    (st : BehaviorState) (bb : Blackboard F) (g : PoseStamped F)
    (hex : Command.Execute g ∈ (replan m line s bb).2 ∨
      Command.Execute g ∈ (Run m line s st bb).2) :
    ((∃ cx cy, bb.GetCostMap2D.World2Map g.position.x g.position.y = (true, cx, cy) ∧
        bb.GetCostMap2D.GetCost cx cy < 253) ∨
      (∃ cx cy, bb.GetCostMap2D.GetCost cx cy < 253 ∧
        (g.position.x, g.position.y) = bb.GetCostMap2D.Map2World cx cy)) ∧
    ((∀ cx cy, bb.GetCostMap2D.World2Map (bb.GetCostMap2D.Map2World cx cy).1
          (bb.GetCostMap2D.Map2World cx cy).2 = (true, cx, cy)) →
      ∃ cx cy, bb.GetCostMap2D.World2Map g.position.x g.position.y = (true, cx, cy) ∧
        bb.GetCostMap2D.GetCost cx cy < 253) := by
  have hre : Command.Execute g ∈ (replan m line s bb).2 := by
    rcases hex with h | h
    · exact h
    · exact absurd h (Run_no_Execute m line s st bb g)
  have hB := replan_Execute m line s bb g hre
  refine ⟨hB, fun hrt => ?_⟩
  rcases hB with h | ⟨cx, cy, hlt, hg⟩
  · exact h
  · refine ⟨cx, cy, ?_, hlt⟩
    have h1 : g.position.x = (bb.GetCostMap2D.Map2World cx cy).1 := congrArg Prod.fst hg
    have h2 : g.position.y = (bb.GetCostMap2D.Map2World cx cy).2 := congrArg Prod.snd hg
    rw [h1, h2]
    exact hrt cx cy

/-- Witness for C4 on the scenario "chase repair" over the reals: the re-plan executes
the centre `(1.5, 0.5)` of the free ray cell `(1, 0)`, the grid map converts cell centres
back to their cells, and the executed goal lies in a cell of cost below 253. -/
theorem C4_executed_goal_cell_below_253_witness :
    Command.Execute
        ({ frame_id := "map", position := ⟨1 + 1 / 2, 0 + 1 / 2, 1⟩,
           orientation := Quaternion.xyzw 0 0 0 1 } : PoseStamped ℝ) ∈
      (replan (⟨fun y x => Complex.arg ⟨x, y⟩, Real.cos, Real.sin, Real.sqrt⟩ : Libm ℝ)
        lineCells new repairScenario).2 ∧
    (∀ cx cy, (repairScenario : Blackboard ℝ).GetCostMap2D.World2Map
        ((repairScenario : Blackboard ℝ).GetCostMap2D.Map2World cx cy).1
        ((repairScenario : Blackboard ℝ).GetCostMap2D.Map2World cx cy).2 = (true, cx, cy)) ∧
    ∃ cx cy, (repairScenario : Blackboard ℝ).GetCostMap2D.World2Map (1 + 1 / 2) (0 + 1 / 2)
        = (true, cx, cy) ∧
      (repairScenario : Blackboard ℝ).GetCostMap2D.GetCost cx cy < 253 := by
  have hex : Command.Execute
        ({ frame_id := "map", position := ⟨1 + 1 / 2, 0 + 1 / 2, 1⟩,
           orientation := Quaternion.xyzw 0 0 0 1 } : PoseStamped ℝ) ∈
      (replan (⟨fun y x => Complex.arg ⟨x, y⟩, Real.cos, Real.sin, Real.sqrt⟩ : Libm ℝ)
        lineCells new repairScenario).2 := by
    rw [replan_repairScenario]
    exact List.mem_singleton.mpr rfl
  have hrt : ∀ cx cy, (repairScenario : Blackboard ℝ).GetCostMap2D.World2Map
        ((repairScenario : Blackboard ℝ).GetCostMap2D.Map2World cx cy).1
        ((repairScenario : Blackboard ℝ).GetCostMap2D.Map2World cx cy).2 = (true, cx, cy) :=
    fun cx cy => gridMap_roundtrip _ cx cy
  exact ⟨hex, hrt,
    (C4_executed_goal_cell_below_253 _ lineCells new BehaviorState.SUCCESS repairScenario _
      (Or.inl hex)).2 hrt⟩

end OpenDayChaseBehavior

namespace ShootBehavior

/-- C5.  With `barrel_heat_` at or above `BARREL_HEAT_LIMIT - PROJECTILE_SPEED`, which is
335, a tick of `ShootBehavior::Run` never calls the shoot service, whatever the blackboard
and the bullet query say; and when the enemy is detected and the query reports a count
other than zero, the tick asks for the bullets and then executes exactly the pose at the
robot's own position turned by `atan2 dy dx` to the enemy. -/
theorem C5_hot_barrel_never_shoots {F : Type} [LinearOrderedField F] (m : Libm F)
    (s : ShootBehavior F) (bb : Blackboard F) (bullet_reply : Option Int)
    (hheat : s.barrel_heat_ ≥ 335) :
    BARREL_HEAT_LIMIT - PROJECTILE_SPEED = 335 ∧
    (∀ robot enemy, Command.shoot robot enemy ∉ Run m s bb bullet_reply) ∧
    (bb.IsEnemyDetected = true → ∀ n : Int, bullet_reply = some n → n ≠ 0 →
      Run m s bb bullet_reply
        = [Command.check_bullet s.robot_,
           Command.Execute
            { frame_id := "map"
              position := ⟨bb.GetRobotMapPose.position.x, bb.GetRobotMapPose.position.y, 0⟩
              orientation := Quaternion.fromRPY 0 0
                (m.atan2 (bb.GetEnemy.position.y - bb.GetRobotMapPose.position.y)
                  (bb.GetEnemy.position.x - bb.GetRobotMapPose.position.x)) }]) := by
  have hlim : BARREL_HEAT_LIMIT - PROJECTILE_SPEED = 335 := by decide
  have hh : s.barrel_heat_ ≥ BARREL_HEAT_LIMIT - PROJECTILE_SPEED := by
    rw [hlim]; exact hheat
  refine ⟨hlim, ?_, ?_⟩
  · intro robot enemy
    unfold Run
    cases hdet : bb.IsEnemyDetected
    · simp
    · cases bullet_reply with
      | none => simp [HasBullet]
      | some n =>
        by_cases hn : n = 0
        · simp [HasBullet, hn]
        · simp [HasBullet, hn, hh]
  · intro hdet n hreply hn
    subst hreply
    simp [Run, hdet, HasBullet, hn, hh, shootPose]

/-- Witness for C5 on the scenario "shoot heat cap" over the reals: robot `r1` at
`(0, 0)`, enemy detected at `(3, 0)`, five bullets left, barrel heat 336. -/
theorem C5_hot_barrel_never_shoots_witness :
    (336 : Int) ≥ 335 ∧
    Run (⟨fun y x => Complex.arg ⟨x, y⟩, Real.cos, Real.sin, Real.sqrt⟩ : Libm ℝ)
        { robot_ := 1, enemy_ := 3, barrel_heat_ := 336, whirl_vel_ := Twist.zero,
          rot_whirl_vel_ := Twist.zero }
        projectionScenario (some 5)
      = [Command.check_bullet 1,
         Command.Execute
          { frame_id := "map"
            position := ⟨0, 0, 0⟩
            orientation := Quaternion.fromRPY 0 0 (Complex.arg ⟨3 - 0, 0 - 0⟩) }] :=
  ⟨by decide,
    (C5_hot_barrel_never_shoots
      (⟨fun y x => Complex.arg ⟨x, y⟩, Real.cos, Real.sin, Real.sqrt⟩ : Libm ℝ)
      { robot_ := 1, enemy_ := 3, barrel_heat_ := 336, whirl_vel_ := Twist.zero,
        rot_whirl_vel_ := Twist.zero }
      projectionScenario (some 5) (by decide)).2.2 rfl 5 rfl (by decide)⟩

/-- C6.  With the enemy detected and the bullet query answering `remaining_bullet = 0`,
a tick of `ShootBehavior::Run` asks for the bullets and then issues exactly one executor
command, `rot_whirl_vel_`; there is no pose goal and no call of the shoot service,
whatever the barrel heat.  On a behaviour constructed from a configuration that loaded,
`rot_whirl_vel_` has the configured angular components and zero linear components, also
after any heat message. -/
theorem C6_no_ammo_whirls {F : Type} [LinearOrderedField F] (m : Libm F)
    (s : ShootBehavior F) (bb : Blackboard F) (hdet : bb.IsEnemyDetected = true) :
    Run m s bb (some 0) = [Command.check_bullet s.robot_, Command.ExecuteTwist s.rot_whirl_vel_] ∧
    executorTrace (Run m s bb (some 0)) = [Command.ExecuteTwist s.rot_whirl_vel_] ∧
    (∀ (config : DecisionConfig F) (ns : String) (robot0 enemy0 heat0 shooter_heat : Int),
      (BarrelHeatCallback (new (some config) ns robot0 enemy0 heat0) shooter_heat).rot_whirl_vel_
        = { linear := ⟨0, 0, 0⟩
            angular := ⟨config.whirl_vel.angle_x_vel, config.whirl_vel.angle_y_vel,
              config.whirl_vel.angle_z_vel⟩ }) := by
  have hrun : Run m s bb (some 0)
      = [Command.check_bullet s.robot_, Command.ExecuteTwist s.rot_whirl_vel_] := by
    simp [Run, hdet, HasBullet]
  refine ⟨hrun, ?_, ?_⟩
  · rw [hrun]
    simp [executorTrace, Command.isExecutor]
  · intro config ns robot0 enemy0 heat0 shooter_heat
    unfold BarrelHeatCallback new LoadParam
    simp only [Twist.zero]
    split
    · rfl
    · split <;> rfl

/-- Witness for C6 on the scenario "shoot no ammo" over the reals: enemy detected, no
bullet left, barrel heat 400. -/
theorem C6_no_ammo_whirls_witness :
    (projectionScenario : Blackboard ℝ).IsEnemyDetected = true ∧
    Run (⟨fun y x => Complex.arg ⟨x, y⟩, Real.cos, Real.sin, Real.sqrt⟩ : Libm ℝ)
        { robot_ := 1, enemy_ := 3, barrel_heat_ := 400, whirl_vel_ := Twist.zero,
          rot_whirl_vel_ := ⟨⟨0, 0, 0⟩, ⟨0, 0, 1⟩⟩ }
        projectionScenario (some 0)
      = [Command.check_bullet 1, Command.ExecuteTwist ⟨⟨0, 0, 0⟩, ⟨0, 0, 1⟩⟩] :=
  ⟨rfl,
    (C6_no_ammo_whirls
      (⟨fun y x => Complex.arg ⟨x, y⟩, Real.cos, Real.sin, Real.sqrt⟩ : Libm ℝ)
      { robot_ := 1, enemy_ := 3, barrel_heat_ := 400, whirl_vel_ := Twist.zero,
        rot_whirl_vel_ := ⟨⟨0, 0, 0⟩, ⟨0, 0, 1⟩⟩ }
      projectionScenario rfl).1⟩

end ShootBehavior

namespace ReloadBehavior

/-- The terminal transition of the polling loop is the same for the three answers of the
reload service. -/
theorem arrived_eq {F : Type} (s : ReloadBehavior F) (reply : Option Bool) :
    arrived s reply
      = ({ s with cancel_goal_ := false },
         [Command.reloading, Command.reload 0, Command.Cancel, Command.un_reload]) := by
  unfold arrived Cancel
  rcases reply with _ | b
  · rfl
  · cases b <;> rfl

/-- The polling loop returns at the first poll that finds the robot within the tolerance,
if there is one. -/
theorem pollLoop_arrives {F : Type} [LinearOrderedField F] (s : ReloadBehavior F)
    (reply : Option Bool) (polls : List (PoseStamped F)) (hc : s.cancel_goal_ = true)
    (harr : ∃ p ∈ polls, (p.position.x - s.reload_spot.position.x) ^ 2 +
        (p.position.y - s.reload_spot.position.y) ^ 2 ≤ 0.17) :
    pollLoop s reply polls = some (arrived s reply) := by
  induction polls with
  | nil => simp at harr
  | cons p rest ih =>
    by_cases hp : (p.position.x - s.reload_spot.position.x) ^ 2 +
        (p.position.y - s.reload_spot.position.y) ^ 2 ≤ 0.17
    · rw [pollLoop, if_pos hc, if_pos hp]
    · rw [pollLoop, if_pos hc, if_neg hp]
      apply ih
      obtain ⟨q, hq, hle⟩ := harr
      rcases List.mem_cons.mp hq with h | h
      · subst h; exact absurd hle hp
      · exact ⟨q, h, hle⟩

/-- C7.  When the executor is not running, the robot is not exactly on the reload spot
and some poll finds the squared distance to the spot at most 0.17, `ReloadBehavior::Run`
returns, and for each of the three answers of the reload service (success, refusal,
failed call) with the same result: the goal is executed, the reloading flag is set, the
service is called once, the executor is cancelled, `cancel_goal_` is false and the
reloading flag is cleared. -/
theorem C7_reload_answer_irrelevant {F : Type} [LinearOrderedField F] (m : Libm F)
    (s : ReloadBehavior F) (st : BehaviorState) (bb : Blackboard F)
    (polls : List (PoseStamped F))
    (hst : st ≠ BehaviorState.RUNNING)
    (hfar : ¬ (s.reload_spot.position.x - bb.GetRobotMapPose.position.x = 0 ∧
      s.reload_spot.position.y - bb.GetRobotMapPose.position.y = 0))
    (harr : ∃ p ∈ polls, (p.position.x - s.reload_spot.position.x) ^ 2 +
        (p.position.y - s.reload_spot.position.y) ^ 2 ≤ 0.17) :
    ∀ reply : Option Bool,
      arrived { s with cancel_goal_ := true } reply
        = ({ s with cancel_goal_ := false },
           [Command.reloading, Command.reload 0, Command.Cancel, Command.un_reload]) ∧
      Run m s st bb polls reply
        = some ({ s with cancel_goal_ := false },
            [Command.Execute (reloadGoal m s bb.GetRobotMapPose), Command.reloading,
             Command.reload 0, Command.Cancel, Command.un_reload]) := by
  intro reply
  refine ⟨arrived_eq _ _, ?_⟩
  have hloop := pollLoop_arrives { s with cancel_goal_ := true } reply polls rfl harr
  unfold Run
  simp only [ne_eq, hst, not_false_eq_true, if_true, hfar, if_false, hloop, arrived_eq, execute]
  rfl

/-- Witness for C7 over the reals: executor idle, robot first at the origin, the second
poll finds it at `(1, 2.4)`, at squared distance 0.16 from the reload spot `(1, 2)`. -/
theorem C7_reload_answer_irrelevant_witness :
    BehaviorState.IDLE ≠ BehaviorState.RUNNING ∧
    (∃ p ∈ [poseAt (0 : ℝ) 0, poseAt 1 2.4],
      (p.position.x - (exampleReload : ReloadBehavior ℝ).reload_spot.position.x) ^ 2 +
        (p.position.y - (exampleReload : ReloadBehavior ℝ).reload_spot.position.y) ^ 2
          ≤ 0.17) ∧
    ∀ reply : Option Bool,
      Run (⟨fun y x => Complex.arg ⟨x, y⟩, Real.cos, Real.sin, Real.sqrt⟩ : Libm ℝ)
          exampleReload BehaviorState.IDLE projectionScenario
          [poseAt 0 0, poseAt 1 2.4] reply
        = some ({ (exampleReload : ReloadBehavior ℝ) with cancel_goal_ := false },
            [Command.Execute
              (reloadGoal (⟨fun y x => Complex.arg ⟨x, y⟩, Real.cos, Real.sin, Real.sqrt⟩ : Libm ℝ)
                exampleReload (poseAt 0 0)),
             Command.reloading, Command.reload 0, Command.Cancel, Command.un_reload]) := by
  have hspot : (exampleReload : ReloadBehavior ℝ).reload_spot.position = ⟨1, 2, 0⟩ := by
    simp [exampleReload, new, LoadParam, spotPose, exampleConfig]
  have harr : ∃ p ∈ [poseAt (0 : ℝ) 0, poseAt 1 2.4],
      (p.position.x - (exampleReload : ReloadBehavior ℝ).reload_spot.position.x) ^ 2 +
        (p.position.y - (exampleReload : ReloadBehavior ℝ).reload_spot.position.y) ^ 2
          ≤ 0.17 := by
    refine ⟨poseAt 1 2.4, by simp, ?_⟩
    rw [hspot]
    simp only [poseAt]
    norm_num
  have hfar : ¬ ((exampleReload : ReloadBehavior ℝ).reload_spot.position.x
        - (projectionScenario : Blackboard ℝ).GetRobotMapPose.position.x = 0 ∧
      (exampleReload : ReloadBehavior ℝ).reload_spot.position.y
        - (projectionScenario : Blackboard ℝ).GetRobotMapPose.position.y = 0) := by
    rw [hspot]
    simp [projectionScenario, poseAt]
  exact ⟨by decide, harr, fun reply =>
    (C7_reload_answer_irrelevant _ exampleReload BehaviorState.IDLE projectionScenario
      [poseAt 0 0, poseAt 1 2.4] (by decide) hfar harr reply).2⟩

end ReloadBehavior

namespace OpenDayChaseBehavior

theorem real_arg_column : Complex.arg (⟨0, 3.4⟩ : ℂ) = Real.pi / 2 := by
  rw [Complex.arg_eq_pi_div_two_iff]
  constructor
  · rfl
  · show (0 : ℝ) < 3.4
    norm_num

theorem real_sqrt_column : Real.sqrt ((3.5 - 3.5) ^ 2 + (3.9 - 0.5) ^ 2) = 3.4 := by
  rw [show ((3.5 : ℝ) - 3.5) ^ 2 + (3.9 - 0.5) ^ 2 = 3.4 ^ 2 by norm_num]
  exact Real.sqrt_sq (by norm_num)

theorem real_floor_three_five : Nat.floor (3.5 : ℝ) = 3 := by
  rw [Nat.floor_eq_iff (by norm_num)]
  constructor <;> norm_num

theorem real_floor_half : Nat.floor (0.5 : ℝ) = 0 := by
  rw [Nat.floor_eq_iff (by norm_num)]
  constructor <;> norm_num

/-- The re-plan on the column scenario over the reals: the goal cell is `(3, 3)`, the
robot cell `(3, 0)`; the ray built to `(robot_cell_x, robot_cell_x)` is the single lethal
cell `(3, 3)`, so the tick ends in the stand-still statement. -/
theorem replan_columnScenario :
    replan (⟨fun y x => Complex.arg ⟨x, y⟩, Real.cos, Real.sin, Real.sqrt⟩ : Libm ℝ)
      lineCells new columnScenario
      = ({ chase_goal_ := poseAt 0 0
           chase_buffer_ := ⟨poseAt 3.5 3.9, PoseStamped.zero⟩
           chase_count_ := 1
           cancel_goal_ := false },
         [Command.Cancel]) := by
  have hl : lineCells 3 3 3 3 = [(3, 3)] := by decide
  have hc : closeEnough (⟨fun y x => Complex.arg ⟨x, y⟩, Real.cos, Real.sin, Real.sqrt⟩ : Libm ℝ)
      (3.5 - 3.5) (3.9 - 0.5) = false := by
    simp only [closeEnough, real_sqrt_column]
    norm_num
  have hg : reduceGoal (⟨fun y x => Complex.arg ⟨x, y⟩, Real.cos, Real.sin, Real.sqrt⟩ : Libm ℝ)
      (poseAt 3.5 3.9) (poseAt 3.5 0.5)
      = { frame_id := "map", position := ⟨3.5, 3.5, 1⟩, orientation := Quaternion.xyzw 0 0 0 1 } := by
    have e1 : (3.5 : ℝ) - 3.5 = 0 := by norm_num
    have e2 : (3.9 : ℝ) - 0.5 = 3.4 := by norm_num
    have e3 : (3.9 : ℝ) - 0.4 = 3.5 := by norm_num
    simp only [reduceGoal, poseAt, e1, e2, real_arg_column, Real.cos_pi_div_two,
      Real.sin_pi_div_two, mul_zero, mul_one, sub_zero, e3]
  have h3 : ¬ ((3.5 : ℝ) < 0 ∨ (3.5 : ℝ) < 0) := by norm_num
  have h4 : ¬ ((3.5 : ℝ) < 0 ∨ (0.5 : ℝ) < 0) := by norm_num
  have h5 : ¬ ((3.5 : ℝ) < 0) := by norm_num
  have h6 : ¬ ((0.5 : ℝ) < 0) := by norm_num
  unfold replan
  simp only [new, columnScenario, ChaseBuffer.set, ChaseBuffer.get]
  simp [poseAt] at hc hg
  simp [hc, hg, gridMap, h3, h4, h5, h6, real_floor_three_five, real_floor_half, hl, findGoal,
    cancelOnce, poseAt]

/-- The re-plan only ever asks for rays whose end cell has two equal coordinates: two
line functions that agree on those give the same re-plan. -/
theorem replan_line_diagonal {F : Type} [LinearOrderedField F] (m : Libm F)
    (line1 line2 : Nat → Nat → Nat → Nat → List (Nat × Nat))
    (h : ∀ gx gy rx, line1 gx gy rx rx = line2 gx gy rx rx)
    (s : OpenDayChaseBehavior F) (bb : Blackboard F) :
    replan m line1 s bb = replan m line2 s bb := by
  unfold replan
  simp only [h]

/-- C9 (the code departs from the claim).  On the column scenario over the reals the
robot cell is `(rx, ry) = (3, 0)` and the projected goal falls in the lethal cell
`(3, 3)`.  The re-plan builds its ray to `(rx, rx) = (3, 3)`, which is the lethal goal
cell alone, finds nothing and cancels; the ray to `(rx, ry) = (3, 0)` that the claim
describes passes the free cell `(3, 2)` first, whose centre `(3.5, 2.5)` would have been
the goal. -/
theorem C9_repair_ray_ends_at_rx_rx :
    (columnScenario : Blackboard ℝ).GetCostMap2D.World2Map 3.5 0.5 = (true, 3, 0) ∧
    (replan (⟨fun y x => Complex.arg ⟨x, y⟩, Real.cos, Real.sin, Real.sqrt⟩ : Libm ℝ)
        lineCells new columnScenario).2 = [Command.Cancel] ∧
    lineCells 3 3 3 3 = [(3, 3)] ∧
    lineCells 3 3 3 0 = [(3, 3), (3, 2), (3, 1), (3, 0)] ∧
    findGoal (columnScenario : Blackboard ℝ).GetCostMap2D (lineCells 3 3 3 0)
      = some (3 + 1 / 2, 2 + 1 / 2) := by
  have hl : lineCells 3 3 3 0 = [(3, 3), (3, 2), (3, 1), (3, 0)] := by decide
  refine ⟨?_, ?_, by decide, hl, ?_⟩
  · have h4 : ¬ ((3.5 : ℝ) < 0 ∨ (0.5 : ℝ) < 0) := by norm_num
    simp only [columnScenario, gridMap, if_neg h4, real_floor_three_five, real_floor_half]
  · rw [replan_columnScenario]
  · rw [hl]
    simp [findGoal, columnScenario, gridMap]

/-- With `cos² + sin² = 1` and the real square root, the projected goal is at distance
exactly 0.4 from the enemy pose it was projected from. -/
theorem reduceGoal_distance (m : Libm ℝ) (hcs : ∀ t, m.cos t ^ 2 + m.sin t ^ 2 = 1)
    (latest robot_map_pose : PoseStamped ℝ) :
    Real.sqrt ((latest.position.x - (reduceGoal m latest robot_map_pose).position.x) ^ 2 +
      (latest.position.y - (reduceGoal m latest robot_map_pose).position.y) ^ 2) = 0.4 := by
  simp only [reduceGoal]
  have h : (latest.position.x - (latest.position.x - 0.4 * m.cos (m.atan2
        (latest.position.y - robot_map_pose.position.y)
        (latest.position.x - robot_map_pose.position.x)))) ^ 2 +
      (latest.position.y - (latest.position.y - 0.4 * m.sin (m.atan2
        (latest.position.y - robot_map_pose.position.y)
        (latest.position.x - robot_map_pose.position.x)))) ^ 2 = 0.4 ^ 2 := by
    have := hcs (m.atan2 (latest.position.y - robot_map_pose.position.y)
      (latest.position.x - robot_map_pose.position.x))
    linear_combination (0.4 : ℝ) ^ 2 * this
  rw [h]
  exact Real.sqrt_sq (by norm_num)

/-- C10 (counterexample).  Robot at `(0, 0)`, opponent at `(3, 0)`: the distance 3 is
positive and outside the dead-band, the projected goal is `(2.6, 0)`, and a robot
standing on it is at distance 0.4 from the opponent, so it fails the stand-off check. -/
theorem C10_projected_goal_misses_dead_band :
    Real.sqrt (((3 : ℝ) - 0) ^ 2 + (0 - 0) ^ 2) = 3 ∧
    closeEnough (⟨fun y x => Complex.arg ⟨x, y⟩, Real.cos, Real.sin, Real.sqrt⟩ : Libm ℝ)
      (3 - 0) (0 - 0) = false ∧
    (reduceGoal (⟨fun y x => Complex.arg ⟨x, y⟩, Real.cos, Real.sin, Real.sqrt⟩ : Libm ℝ)
      (poseAt 3 0) (poseAt 0 0)).position = ⟨2.6, 0, 1⟩ ∧
    Real.sqrt (((3 : ℝ) - 2.6) ^ 2 + (0 - 0) ^ 2) = 0.4 ∧
    closeEnough (⟨fun y x => Complex.arg ⟨x, y⟩, Real.cos, Real.sin, Real.sqrt⟩ : Libm ℝ)
      (3 - 2.6) (0 - 0) = false := by
  have e1 : Real.sqrt (((3 : ℝ) - 0) ^ 2 + (0 - 0) ^ 2) = 3 := by
    rw [show ((3 : ℝ) - 0) ^ 2 + (0 - 0) ^ 2 = 3 ^ 2 by norm_num]
    exact Real.sqrt_sq (by norm_num)
  have e2 : Real.sqrt (((3 : ℝ) - 2.6) ^ 2 + (0 - 0) ^ 2) = 0.4 := by
    rw [show ((3 : ℝ) - 2.6) ^ 2 + (0 - 0) ^ 2 = 0.4 ^ 2 by norm_num]
    exact Real.sqrt_sq (by norm_num)
  refine ⟨e1, ?_, ?_, e2, ?_⟩
  · simp only [closeEnough, e1]
    norm_num
  · have h2 : (3 : ℝ) - 0.4 = 2.6 := by norm_num
    simp [reduceGoal, poseAt, real_arg_three, h2]
  · simp only [closeEnough, e2]
    norm_num

/-- C10 (as amended).  Over the reals, with `cos² + sin² = 1` and the real square root,
the goal the re-plan projects is at distance exactly 0.4 from the opponent, for every
robot and opponent position; 0.4 is below the dead-band's lower end 0.8, so a robot
standing on the commanded goal fails the stand-off check. -/
theorem C10_projected_goal_at_distance_04 (m : Libm ℝ)
    (hcs : ∀ t, m.cos t ^ 2 + m.sin t ^ 2 = 1) (hsqrt : ∀ x, m.sqrt x = Real.sqrt x)
    (latest robot_map_pose : PoseStamped ℝ) :
    Real.sqrt ((latest.position.x - (reduceGoal m latest robot_map_pose).position.x) ^ 2 +
      (latest.position.y - (reduceGoal m latest robot_map_pose).position.y) ^ 2) = 0.4 ∧
    closeEnough m (latest.position.x - (reduceGoal m latest robot_map_pose).position.x)
      (latest.position.y - (reduceGoal m latest robot_map_pose).position.y) = false := by
  have hd := reduceGoal_distance m hcs latest robot_map_pose
  refine ⟨hd, ?_⟩
  simp only [closeEnough, hsqrt, hd]
  norm_num

/-- Witness for C10 as amended: the real `cos`, `sin` and square root, robot at `(0, 0)`
and opponent at `(3, 0)`. -/
theorem C10_projected_goal_at_distance_04_witness :
    (∀ t : ℝ, Real.cos t ^ 2 + Real.sin t ^ 2 = 1) ∧
    closeEnough (⟨fun y x => Complex.arg ⟨x, y⟩, Real.cos, Real.sin, Real.sqrt⟩ : Libm ℝ)
      ((poseAt (3 : ℝ) 0).position.x -
        (reduceGoal (⟨fun y x => Complex.arg ⟨x, y⟩, Real.cos, Real.sin, Real.sqrt⟩ : Libm ℝ)
          (poseAt 3 0) (poseAt 0 0)).position.x)
      ((poseAt (3 : ℝ) 0).position.y -
        (reduceGoal (⟨fun y x => Complex.arg ⟨x, y⟩, Real.cos, Real.sin, Real.sqrt⟩ : Libm ℝ)
          (poseAt 3 0) (poseAt 0 0)).position.y) = false :=
  ⟨Real.cos_sq_add_sin_sq,
    (C10_projected_goal_at_distance_04
      (⟨fun y x => Complex.arg ⟨x, y⟩, Real.cos, Real.sin, Real.sqrt⟩ : Libm ℝ)
      Real.cos_sq_add_sin_sq (fun _ => rfl) (poseAt 3 0) (poseAt 0 0)).2⟩

end OpenDayChaseBehavior

namespace OpenDayChaseBehavior

/-- Reading a slot of the ring buffer right after writing it returns what was written. -/
theorem ChaseBuffer.get_set {F : Type} (b : ChaseBuffer F) (i : Nat) (p : PoseStamped F) :
    (b.set i p).get i = p := by
  unfold ChaseBuffer.set ChaseBuffer.get
  split <;> simp [*]

/-- The re-plan commutes with `SetGoal`: the stored chase goal is carried along untouched
and the trace is the same. -/
theorem replan_SetGoal {F : Type} [LinearOrderedField F] (m : Libm F)
    (line : Nat → Nat → Nat → Nat → List (Nat × Nat)) (s : OpenDayChaseBehavior F)
    (p : PoseStamped F) (bb : Blackboard F) :
    replan m line (SetGoal s p) bb
      = (SetGoal (replan m line s bb).1 p, (replan m line s bb).2) := by
  unfold replan SetGoal
  simp only
  split
  · unfold cancelOnce
    split <;> rfl
  · split
    · rfl
    · split
      · split
        · rfl
        · unfold cancelOnce
          split <;> rfl
      · rfl

/-- C12.  `SetGoal` changes no member other than `chase_goal_`, and the stored goal has
no influence on a tick: on the state after `SetGoal p`, for the same executor state and
blackboard, `Run` issues the same commands and ends in the same ring buffer, count and
cancel flag as on the state before, the stored goal being carried along; the same holds
for the re-plan behind the gate of `Run`.  Two states that differ only in `chase_goal_`
are `s` and `SetGoal s p` for the goal `p` of the other. -/
theorem C12_SetGoal_has_no_influence {F : Type} [LinearOrderedField F] (m : Libm F)
    (line : Nat → Nat → Nat → Nat → List (Nat × Nat)) (s : OpenDayChaseBehavior F)
    (p : PoseStamped F) (st : BehaviorState) (bb : Blackboard F) :
    (SetGoal s p).chase_goal_ = p ∧
    (SetGoal s p).chase_buffer_ = s.chase_buffer_ ∧
    (SetGoal s p).chase_count_ = s.chase_count_ ∧
    (SetGoal s p).cancel_goal_ = s.cancel_goal_ ∧
    (Run m line (SetGoal s p) st bb).2 = (Run m line s st bb).2 ∧
    (Run m line (SetGoal s p) st bb).1 = SetGoal (Run m line s st bb).1 p ∧
    (replan m line (SetGoal s p) bb).2 = (replan m line s bb).2 ∧
    (replan m line (SetGoal s p) bb).1 = SetGoal (replan m line s bb).1 p := by
  have hr := replan_SetGoal m line s p bb
  refine ⟨rfl, rfl, rfl, rfl, ?_, ?_, ?_, ?_⟩
  · cases st <;> simp [Run, SetGoal]
  · cases st <;> simp [Run, SetGoal]
  · rw [hr]
  · rw [hr]

end OpenDayChaseBehavior

namespace OpenDayChaseBehavior

/-- The re-plan works from the enemy pose of this tick: the stand-off check is taken on
the offsets from the robot to `GetEnemy`, and when it fails, the projected goal converts
in bounds and its cell costs less than 253, the one command is the `Execute` of the goal
projected from `GetEnemy`. -/
theorem replan_uses_enemy_pose {F : Type} [LinearOrderedField F] (m : Libm F)
    (line : Nat → Nat → Nat → Nat → List (Nat × Nat)) (s : OpenDayChaseBehavior F)
    (bb : Blackboard F) :
    (closeEnough m (bb.GetEnemy.position.x - bb.GetRobotMapPose.position.x)
        (bb.GetEnemy.position.y - bb.GetRobotMapPose.position.y) = true →
      (replan m line s bb).2 = (cancelOnce s).2) ∧
    (closeEnough m (bb.GetEnemy.position.x - bb.GetRobotMapPose.position.x)
        (bb.GetEnemy.position.y - bb.GetRobotMapPose.position.y) = false →
      (bb.GetCostMap2D.World2Map
        (reduceGoal m bb.GetEnemy bb.GetRobotMapPose).position.x
        (reduceGoal m bb.GetEnemy bb.GetRobotMapPose).position.y).1 = true →
      bb.GetCostMap2D.GetCost
        (bb.GetCostMap2D.World2Map
          (reduceGoal m bb.GetEnemy bb.GetRobotMapPose).position.x
          (reduceGoal m bb.GetEnemy bb.GetRobotMapPose).position.y).2.1
        (bb.GetCostMap2D.World2Map
          (reduceGoal m bb.GetEnemy bb.GetRobotMapPose).position.x
          (reduceGoal m bb.GetEnemy bb.GetRobotMapPose).position.y).2.2 < 253 →
      (replan m line s bb).2
        = [Command.Execute (reduceGoal m bb.GetEnemy bb.GetRobotMapPose)]) := by
  have hs : ∀ c : Nat, (((c + 1) % 2 ^ 32) % 2 + 2 - 1) % 2 = c % 2 := by
    intro c
    omega
  constructor
  · intro hclose
    unfold replan
    simp only [hs, ChaseBuffer.get_set, hclose, if_true]
    unfold cancelOnce
    split <;> rfl
  · intro hfar hflag hcost
    unfold replan
    simp only [hs, ChaseBuffer.get_set, hfar, hflag, Nat.not_le.mpr hcost]
    simp

end OpenDayChaseBehavior

end roborts_decision
